import Mathlib

/-!
# EduPath chatbot (`src/login/ai-chatbot.js`): response selection and transcript

A shallow embedding of the class `EduPathChatbot`.

* JavaScript strings are Lean strings.  Every keyword of the source is plain
  ASCII, so substring search over code points agrees with the source's search
  over UTF-16 code units.
* `String.prototype.toLowerCase` is a host builtin.  `answer` and
  `generateAIResponse` take it as the parameter `toLowerCase`, and the general
  theorems hold for every such function.  `asciiLower` is the instance used to
  evaluate concrete ASCII utterances, on which it agrees with the builtin.
* `window.location.pathname` and `new Date()` are read from the host; they are
  the explicit arguments `pathname` and `now` (milliseconds).
* The DOM work of `addMessage`, `toggleChat` and `closeChat` (rendering only) is
  left out; the fields `isOpen` and `messages` are kept.
* `setTimeout` callbacks that were scheduled and have not run yet are the field
  `timers` (oldest first; all have the same delay, so they run in that order).
-/

set_option maxRecDepth 20000

namespace EduPath

/-! ## Strings -/

/-- Substring search on character lists: `key` occurs somewhere in the first list. -/
def includesChars : List Char → List Char → Bool
  | [], key => key.isEmpty
  | c :: cs, key => key.isPrefixOf (c :: cs) || includesChars cs key

/-- The method `String.prototype.includes`: `s.includes(key)`. -/
def includes (s key : String) : Bool := includesChars s.data key.data

/-- Lowercasing of the letters `A`..`Z`; agrees with the builtin `toLowerCase` on ASCII text. -/
def asciiLower (s : String) : String := String.mk (s.data.map Char.toLower)

/-- Code points removed by `String.prototype.trim`: ECMAScript WhiteSpace and LineTerminator. -/
def isWhiteSpace (c : Char) : Bool :=
  let n := c.toNat
  n = 0x09 || n = 0x0A || n = 0x0B || n = 0x0C || n = 0x0D || n = 0x20 || n = 0xA0 ||
  n = 0x1680 || (0x2000 ≤ n && n ≤ 0x200A) || n = 0x2028 || n = 0x2029 || n = 0x202F ||
  n = 0x205F || n = 0x3000 || n = 0xFEFF

/-- Character-list form of `trim`. -/
def trimChars (cs : List Char) : List Char :=
  ((cs.dropWhile isWhiteSpace).reverse.dropWhile isWhiteSpace).reverse

/-- The method `String.prototype.trim`. -/
def trim (s : String) : String := String.mk (trimChars s.data)

/-- The expression `x || d` where `x` is `null` or a string: `null` and `""` are falsy. -/
def orElse (x : Option String) (d : String) : String :=
  match x with
  | none => d
  | some r => if r = "" then d else r

/-! ## Response engine -/

/-- Scan of `Object.entries(responses)` in insertion order; `none` is `null`.
No key of the source is an integer index, so insertion order is declaration order. -/
def findBestResponse (message : String) : List (String × String) → Option String
  | [] => none
  | (key, response) :: rest =>
    if includes message key then some response else findBestResponse message rest

/-- The object `responses` of `getLoginResponse`. -/
def loginResponses : List (String × String) :=
  [("password", "For security, use a strong password with at least 8 characters, including uppercase, lowercase, numbers, and symbols."),
   ("forgot", "If you forgot your password, click the \"Forgot password?\" link below the login form. We'll send you a reset link."),
   ("account", "Don't have an account? Click \"Sign up for free\" to create one. It only takes 2 minutes!"),
   ("help", "I can help with login issues, account creation, password recovery, or any questions about our platform. What do you need?")]

/-- The string after `||` in `getLoginResponse`. -/
def loginDefault : String :=
  "I'm here to help with your login! What specific issue are you facing?"

def getLoginResponse (message : String) : String :=
  orElse (findBestResponse message loginResponses) loginDefault

/-- The object `responses` of `getRegistrationResponse`. -/
def registrationResponses : List (String × String) :=
  [("password", "For a strong password, use at least 8 characters with a mix of uppercase, lowercase, numbers, and symbols. Avoid common words."),
   ("career", "Think about what activities you enjoy most. Do you like problem-solving, helping people, creating things, or analyzing data?"),
   ("email", "Use a professional email address that you check regularly. This will be important for receiving career guidance."),
   ("interest", "Your career interest helps our AI recommend relevant colleges, courses, and career paths. You can change this later."),
   ("help", "I can help with form validation, career interest selection, and explain any part of the signup process. What would you like to know?")]

/-- The string after `||` in `getRegistrationResponse`. -/
def registrationDefault : String :=
  "I'm here to help with your registration! What would you like to know?"

def getRegistrationResponse (message : String) : String :=
  orElse (findBestResponse message registrationResponses) registrationDefault

/-- The object `responses` of `getQuizResponse`. -/
def quizResponses : List (String × String) :=
  [("career", "Our career quiz analyzes your interests, skills, and personality to suggest the best career paths for you. Just answer honestly!"),
   ("question", "Each question helps us understand your preferences better. There are no right or wrong answers."),
   ("result", "After completing the quiz, you'll get personalized career recommendations and college suggestions."),
   ("help", "I can explain the quiz process, help with questions, or guide you through the results. What do you need?")]

/-- The string after `||` in `getQuizResponse`. -/
def quizDefault : String :=
  "I can help you with the career assessment quiz. What would you like to know?"

def getQuizResponse (message : String) : String :=
  orElse (findBestResponse message quizResponses) quizDefault

/-- The object `responses` of `getCollegesResponse`. -/
def collegesResponses : List (String × String) :=
  [("college", "I can help you find colleges that match your interests and career goals. What field are you interested in?"),
   ("admission", "College admissions typically require good grades, test scores, essays, and extracurricular activities. I can guide you through the process."),
   ("cost", "College costs vary widely. I can help you find scholarships, financial aid, and affordable options."),
   ("help", "I can help with college selection, admission requirements, costs, and finding the right fit for you.")]

/-- The string after `||` in `getCollegesResponse`. -/
def collegesDefault : String :=
  "I can help you explore colleges and universities. What would you like to know?"

def getCollegesResponse (message : String) : String :=
  orElse (findBestResponse message collegesResponses) collegesDefault

/-- The object `responses` of `getCareersResponse`. -/
def careersResponses : List (String × String) :=
  [("career", "I can help you explore different career paths based on your interests and skills. What field interests you?"),
   ("salary", "Career salaries vary by field, experience, and location. I can provide general salary ranges for different careers."),
   ("skills", "Different careers require different skills. I can help you identify what skills you need to develop."),
   ("help", "I can help with career exploration, skill development, and finding the right career path for you.")]

/-- The string after `||` in `getCareersResponse`. -/
def careersDefault : String :=
  "I can help you explore career options and plan your professional future. What interests you?"

def getCareersResponse (message : String) : String :=
  orElse (findBestResponse message careersResponses) careersDefault

/-- The object `responses` of `getResourcesResponse`. -/
def resourcesResponses : List (String × String) :=
  [("study", "I can recommend study materials, techniques, and resources based on your subjects and learning style."),
   ("book", "Our resource library includes e-books, videos, practice tests, and study guides for various subjects."),
   ("help", "I can help you find the right study materials, recommend learning strategies, and guide your academic journey.")]

/-- The string after `||` in `getResourcesResponse`. -/
def resourcesDefault : String :=
  "I can help you find the right study materials and resources. What subject are you studying?"

def getResourcesResponse (message : String) : String :=
  orElse (findBestResponse message resourcesResponses) resourcesDefault

/-- The object `responses` of `getProfileResponse`. -/
def profileResponses : List (String × String) :=
  [("profile", "I can help you update your profile, manage your preferences, and track your progress."),
   ("recommendation", "Your profile helps me provide personalized recommendations for colleges, careers, and study materials."),
   ("help", "I can help you manage your profile, update your information, and optimize your recommendations.")]

/-- The string after `||` in `getProfileResponse`. -/
def profileDefault : String :=
  "I can help you manage your profile and get personalized recommendations. What would you like to update?"

def getProfileResponse (message : String) : String :=
  orElse (findBestResponse message profileResponses) profileDefault

/-- The value of the property `default` of the object `responses` of `getGeneralResponse`. -/
def generalDefault : String :=
  "I'm here to help with your career and education journey! I can assist with career guidance, college selection, study tips, and more. What would you like to know?"

/-- The object `responses` of `getGeneralResponse`; `default` is its last property and is
scanned by `findBestResponse` like every other one. -/
def generalResponses : List (String × String) :=
  [("hello", "Hello! I'm your AI assistant. I can help with career guidance, college selection, study tips, and more. How can I assist you?"),
   ("help", "I can help with career guidance, college selection, study materials, quiz assistance, and general questions about our platform."),
   ("career", "I can help you explore career options, find the right path, and plan your professional future. What interests you?"),
   ("college", "I can help you find colleges, understand admission requirements, and choose the right institution for your goals."),
   ("study", "I can recommend study materials, techniques, and resources to help you succeed academically."),
   ("quiz", "I can help you with our career assessment quiz and explain the results."),
   ("default", generalDefault)]

/-- The function returns `findBestResponse(message, responses) || responses.default`. -/
def getGeneralResponse (message : String) : String :=
  orElse (findBestResponse message generalResponses) generalDefault

def getCurrentPageContext (path : String) : String :=
  if includes path "login" then "login"
  else if includes path "register" then "register"
  else if includes path "quiz" then "quiz"
  else if includes path "colleges" then "colleges"
  else if includes path "career" then "careers"
  else if includes path "resources" then "resources"
  else if includes path "profile" then "profile"
  else "home"

/-- The body of `generateAIResponse` with `currentPage` given: lowercase the message, then
dispatch on the page. -/
def answer (toLowerCase : String → String) (currentPage message : String) : String :=
  let lowerMessage := toLowerCase message
  if currentPage = "login" then getLoginResponse lowerMessage
  else if currentPage = "register" then getRegistrationResponse lowerMessage
  else if currentPage = "quiz" then getQuizResponse lowerMessage
  else if currentPage = "colleges" then getCollegesResponse lowerMessage
  else if currentPage = "careers" then getCareersResponse lowerMessage
  else if currentPage = "resources" then getResourcesResponse lowerMessage
  else if currentPage = "profile" then getProfileResponse lowerMessage
  else getGeneralResponse lowerMessage

def generateAIResponse (toLowerCase : String → String) (pathname message : String) : String :=
  answer toLowerCase (getCurrentPageContext pathname) message

/-- The keyword table scanned on a page: the `responses` object of the function that
`generateAIResponse` dispatches to. -/
def tableOf (currentPage : String) : List (String × String) :=
  if currentPage = "login" then loginResponses
  else if currentPage = "register" then registrationResponses
  else if currentPage = "quiz" then quizResponses
  else if currentPage = "colleges" then collegesResponses
  else if currentPage = "careers" then careersResponses
  else if currentPage = "resources" then resourcesResponses
  else if currentPage = "profile" then profileResponses
  else generalResponses

/-- The string a page's function returns when its scan finds nothing. -/
def defaultOf (currentPage : String) : String :=
  if currentPage = "login" then loginDefault
  else if currentPage = "register" then registrationDefault
  else if currentPage = "quiz" then quizDefault
  else if currentPage = "colleges" then collegesDefault
  else if currentPage = "careers" then careersDefault
  else if currentPage = "resources" then resourcesDefault
  else if currentPage = "profile" then profileDefault
  else generalDefault

/-- The seven pages that have a function of their own in `generateAIResponse`. -/
def pageContexts : List String :=
  ["login", "register", "quiz", "colleges", "careers", "resources", "profile"]

/-- All eight `responses` objects of the source. -/
def allTables : List (List (String × String)) :=
  [loginResponses, registrationResponses, quizResponses, collegesResponses,
   careersResponses, resourcesResponses, profileResponses, generalResponses]

/-- Reference definition of the resolver's table, following the specification's words: the
ordered (substring, context) pairs. -/
def contextPairs : List (String × String) :=
  [("login", "login"), ("register", "register"), ("quiz", "quiz"), ("colleges", "colleges"),
   ("career", "careers"), ("resources", "resources"), ("profile", "profile")]

/-- Reference definition of `resolve`, following the specification's words: the context of the
first pair whose substring occurs in the location path, else `home`. -/
def resolveSpec (locationPath : String) : String :=
  match contextPairs.find? (fun p => includes locationPath p.1) with
  | some p => p.2
  | none => "home"

/-! ## Session and transcript -/

/-- The second argument of `addMessage`: the strings `'user'` and `'ai'`. -/
inductive Sender where
  | user
  | ai
deriving DecidableEq, Repr

/-- An element of `this.messages`: `{ message, sender, timestamp }`. -/
structure Message where
  message : String
  sender : Sender
  timestamp : Nat
deriving DecidableEq, Repr

/-- The fields of an `EduPathChatbot` instance, and the `setTimeout` callbacks of `sendMessage`
that are scheduled and have not run: each is identified by the `message` it captured. -/
structure EduPathChatbot where
  welcomeMessage : String
  isOpen : Bool
  messages : List Message
  timers : List String
deriving DecidableEq, Repr

/-- The value of `welcomeMessage` in the constructor's default options. -/
def defaultWelcomeMessage : String := "Hi! I'm your AI assistant. How can I help you today?"

/-- The last statement of `addMessage`: `this.messages.push({ message, sender, timestamp })`. -/
def addMessage (self : EduPathChatbot) (message : String) (sender : Sender) (now : Nat) :
    EduPathChatbot :=
  { self with messages := self.messages ++ [{ message := message, sender := sender, timestamp := now }] }

def addWelcomeMessage (self : EduPathChatbot) (now : Nat) : EduPathChatbot :=
  addMessage self self.welcomeMessage Sender.ai now

def init (self : EduPathChatbot) (now : Nat) : EduPathChatbot :=
  addWelcomeMessage self now

/-- The constructor; `welcomeMessage` is `options.welcomeMessage` when the caller gives one. -/
def new (welcomeMessage : Option String) (now : Nat) : EduPathChatbot :=
  init { welcomeMessage := welcomeMessage.getD defaultWelcomeMessage, isOpen := false,
         messages := [], timers := [] } now

def toggleChat (self : EduPathChatbot) : EduPathChatbot :=
  { self with isOpen := !self.isOpen }

def closeChat (self : EduPathChatbot) : EduPathChatbot :=
  { self with isOpen := false }

/-- The method `sendMessage`; `inputValue` is the value of the input field. -/
def sendMessage (self : EduPathChatbot) (inputValue : String) (now : Nat) : EduPathChatbot :=
  let message := trim inputValue
  if message = "" then self
  else
    let self1 := addMessage self message Sender.user now
    { self1 with timers := self1.timers ++ [message] }

/-- The arrow function that `sendMessage` hands to `setTimeout`, for the captured `message`. -/
def timerCallback (toLowerCase : String → String) (self : EduPathChatbot) (message : String)
    (pathname : String) (now : Nat) : EduPathChatbot :=
  let response := generateAIResponse toLowerCase pathname message
  addMessage self response Sender.ai now

/-- The oldest scheduled callback runs and leaves the timer queue; with no callback scheduled
nothing runs. -/
def replyCompletes (toLowerCase : String → String) (self : EduPathChatbot) (pathname : String)
    (now : Nat) : EduPathChatbot :=
  match self.timers with
  | [] => self
  | message :: rest => timerCallback toLowerCase { self with timers := rest } message pathname now

/-- The public method `open`. -/
def openChat (self : EduPathChatbot) : EduPathChatbot :=
  if !self.isOpen then toggleChat self else self

def close (self : EduPathChatbot) : EduPathChatbot :=
  if self.isOpen then toggleChat self else self

def addSystemMessage (self : EduPathChatbot) (message : String) (now : Nat) : EduPathChatbot :=
  addMessage self message Sender.ai now

def getChatHistory (self : EduPathChatbot) : List Message := self.messages

/-- What can happen to a session: a call of a method, or the run of a scheduled callback. -/
inductive Event where
  | sendMessage (inputValue : String) (now : Nat)
  | replyCompletes (pathname : String) (now : Nat)
  | addSystemMessage (message : String) (now : Nat)
  | toggleChat
  | closeChat
  | openChat
  | close
deriving Repr

def step (toLowerCase : String → String) (self : EduPathChatbot) : Event → EduPathChatbot
  | Event.sendMessage inputValue now => sendMessage self inputValue now
  | Event.replyCompletes pathname now => replyCompletes toLowerCase self pathname now
  | Event.addSystemMessage message now => addSystemMessage self message now
  | Event.toggleChat => toggleChat self
  | Event.closeChat => closeChat self
  | Event.openChat => openChat self
  | Event.close => close self

/-- The session after a sequence of events, first event first. -/
def run (toLowerCase : String → String) (self : EduPathChatbot) : List Event → EduPathChatbot
  | [] => self
  | e :: es => run toLowerCase (step toLowerCase self e) es

/-- Number of messages of the transcript that were sent by the user. -/
def userCount (self : EduPathChatbot) : Nat :=
  (self.messages.filter (fun m => m.sender = Sender.user)).length

/-! ## Helper lemmas -/

theorem answer_eq_scan (toLowerCase : String → String) (currentPage message : String) :
    answer toLowerCase currentPage message =
      orElse (findBestResponse (toLowerCase message) (tableOf currentPage))
        (defaultOf currentPage) := by
  unfold answer tableOf defaultOf
  split_ifs <;> rfl

theorem findBestResponse_mem {message : String} {responses : List (String × String)}
    {r : String} (h : findBestResponse message responses = some r) :
    ∃ key, (key, r) ∈ responses ∧ includes message key = true := by
  induction responses with
  | nil => simp [findBestResponse] at h
  | cons p rest ih =>
    obtain ⟨key, response⟩ := p
    by_cases hk : includes message key = true
    · simp [findBestResponse, hk] at h
      exact ⟨key, by simp [h], hk⟩
    · simp [findBestResponse, hk] at h
      obtain ⟨k, hmem, hin⟩ := ih h
      exact ⟨k, List.mem_cons_of_mem _ hmem, hin⟩

theorem findBestResponse_none {message : String} {responses : List (String × String)}
    (h : ∀ p ∈ responses, includes message p.1 = false) :
    findBestResponse message responses = none := by
  induction responses with
  | nil => rfl
  | cons p rest ih =>
    obtain ⟨key, response⟩ := p
    have hk : includes message key = false := h (key, response) (List.mem_cons_self _ _)
    simp only [findBestResponse, hk]
    exact ih (fun q hq => h q (List.mem_cons_of_mem _ hq))

theorem findBestResponse_first {message : String} (pre post : List (String × String))
    (key response : String) (hpre : ∀ p ∈ pre, includes message p.1 = false)
    (hkey : includes message key = true) :
    findBestResponse message (pre ++ (key, response) :: post) = some response := by
  induction pre with
  | nil => simp [findBestResponse, hkey]
  | cons p rest ih =>
    obtain ⟨k, r⟩ := p
    have hk : includes message k = false := hpre (k, r) (List.mem_cons_self _ _)
    simp only [List.cons_append, findBestResponse, hk]
    exact ih (fun q hq => hpre q (List.mem_cons_of_mem _ hq))

theorem tableOf_values_ne_empty (currentPage : String) :
    ∀ p ∈ tableOf currentPage, p.2 ≠ "" := by
  unfold tableOf
  split_ifs <;> decide

theorem defaultOf_ne_empty (currentPage : String) : defaultOf currentPage ≠ "" := by
  unfold defaultOf
  split_ifs <;> decide

theorem includesChars_iff_infix (s key : List Char) :
    includesChars s key = true ↔ key <:+: s := by
  induction s with
  | nil => simp [includesChars, List.isEmpty_iff]
  | cons c cs ih =>
    rw [includesChars, Bool.or_eq_true, ih, List.infix_cons_iff, List.isPrefixOf_iff_prefix]

theorem includes_iff_infix (s key : String) : includes s key = true ↔ key.data <:+: s.data :=
  includesChars_iff_infix s.data key.data

theorem trimChars_eq_nil_iff (cs : List Char) :
    trimChars cs = [] ↔ ∀ c ∈ cs, isWhiteSpace c = true := by
  unfold trimChars
  rw [List.reverse_eq_nil_iff, List.dropWhile_eq_nil_iff]
  constructor
  · intro h
    have hd : cs.dropWhile isWhiteSpace = [] := by
      cases hcase : cs.dropWhile isWhiteSpace with
      | nil => rfl
      | cons x xs =>
        have hx : isWhiteSpace x = true := h x (by simp [hcase])
        have := List.head_dropWhile_not isWhiteSpace cs (by simp [hcase])
        simp [hcase, hx] at this
    exact List.dropWhile_eq_nil_iff.mp hd
  · intro h x hx
    have hd : cs.dropWhile isWhiteSpace = [] := List.dropWhile_eq_nil_iff.mpr h
    simp [hd] at hx

theorem trim_eq_empty_iff (s : String) :
    trim s = "" ↔ ∀ c ∈ s.data, isWhiteSpace c = true := by
  rw [← trimChars_eq_nil_iff]
  unfold trim
  constructor
  · intro h
    have := congrArg String.data h
    simpa using this
  · intro h
    rw [h]

theorem answer_first_match (toLowerCase : String → String) (currentPage message : String)
    (pre post : List (String × String)) (key response : String)
    (htable : tableOf currentPage = pre ++ (key, response) :: post)
    (hpre : ∀ p ∈ pre, includes (toLowerCase message) p.1 = false)
    (hkey : includes (toLowerCase message) key = true) :
    answer toLowerCase currentPage message = response := by
  have hne : response ≠ "" :=
    tableOf_values_ne_empty currentPage (key, response) (by rw [htable]; simp)
  rw [answer_eq_scan, htable, findBestResponse_first pre post key response hpre hkey]
  simp [orElse, hne]

theorem answer_no_match (toLowerCase : String → String) (currentPage message : String)
    (hnone : ∀ p ∈ tableOf currentPage, includes (toLowerCase message) p.1 = false) :
    answer toLowerCase currentPage message = defaultOf currentPage := by
  rw [answer_eq_scan, findBestResponse_none hnone]
  rfl

theorem answer_ne_empty (toLowerCase : String → String) (currentPage message : String) :
    answer toLowerCase currentPage message ≠ "" := by
  rw [answer_eq_scan]
  cases h : findBestResponse (toLowerCase message) (tableOf currentPage) with
  | none => exact defaultOf_ne_empty currentPage
  | some r =>
    obtain ⟨key, hmem, _⟩ := findBestResponse_mem h
    have hne : r ≠ "" := tableOf_values_ne_empty currentPage (key, r) hmem
    simp [orElse, hne]

theorem exists_first_match (message : String) (responses : List (String × String))
    (hex : ∃ p ∈ responses, includes message p.1 = true) :
    ∃ pre post key response, responses = pre ++ (key, response) :: post ∧
      (∀ p ∈ pre, includes message p.1 = false) ∧ includes message key = true := by
  induction responses with
  | nil => simp at hex
  | cons q rest ih =>
    obtain ⟨k, r⟩ := q
    by_cases hk : includes message k = true
    · exact ⟨[], rest, k, r, rfl, by simp, hk⟩
    · have hex2 : ∃ p ∈ rest, includes message p.1 = true := by
        obtain ⟨p, hp, hin⟩ := hex
        rcases List.mem_cons.mp hp with h | h
        · subst h; exact absurd hin hk
        · exact ⟨p, h, hin⟩
      obtain ⟨pre, post, key, response, heq, hpre, hkey⟩ := ih hex2
      refine ⟨(k, r) :: pre, post, key, response, by simp [heq], ?_, hkey⟩
      intro p hp
      rcases List.mem_cons.mp hp with h | h
      · subst h; simpa using hk
      · exact hpre p h

theorem tableOf_mem_allTables (currentPage : String) : tableOf currentPage ∈ allTables := by
  unfold tableOf allTables
  split_ifs <;> simp

theorem sendMessage_of_trim_empty (self : EduPathChatbot) (inputValue : String) (now : Nat)
    (h : trim inputValue = "") : sendMessage self inputValue now = self := by
  simp [sendMessage, h]

theorem sendMessage_of_trim_ne_empty (self : EduPathChatbot) (inputValue : String) (now : Nat)
    (h : trim inputValue ≠ "") :
    sendMessage self inputValue now =
      { self with
        messages := self.messages ++
          [{ message := trim inputValue, sender := Sender.user, timestamp := now }]
        timers := self.timers ++ [trim inputValue] } := by
  simp [sendMessage, h, addMessage]

theorem userCount_addMessage_user (self : EduPathChatbot) (message : String) (now : Nat) :
    userCount (addMessage self message Sender.user now) = userCount self + 1 := by
  simp [userCount, addMessage, List.filter_append]

theorem userCount_addMessage_ai (self : EduPathChatbot) (message : String) (now : Nat) :
    userCount (addMessage self message Sender.ai now) = userCount self := by
  simp [userCount, addMessage, List.filter_append]

theorem step_timers_le_userCount (toLowerCase : String → String) (self : EduPathChatbot)
    (e : Event) (h : self.timers.length ≤ userCount self) :
    (step toLowerCase self e).timers.length ≤ userCount (step toLowerCase self e) := by
  cases e with
  | sendMessage inputValue now =>
    by_cases ht : trim inputValue = ""
    · simpa [step, sendMessage_of_trim_empty self inputValue now ht] using h
    · have hu : userCount (sendMessage self inputValue now) = userCount self + 1 := by
        simp [sendMessage_of_trim_ne_empty self inputValue now ht, userCount,
          List.filter_append]
      have hl : (sendMessage self inputValue now).timers.length = self.timers.length + 1 := by
        simp [sendMessage_of_trim_ne_empty self inputValue now ht]
      simp only [step]
      omega
  | replyCompletes pathname now =>
    cases hq : self.timers with
    | nil => simp [step, replyCompletes, hq]
    | cons m rest =>
      have hu : userCount (replyCompletes toLowerCase self pathname now) = userCount self := by
        simp [replyCompletes, hq, timerCallback, addMessage, userCount, List.filter_append]
      have hl : (replyCompletes toLowerCase self pathname now).timers.length = rest.length := by
        simp [replyCompletes, hq, timerCallback, addMessage]
      have hlen : self.timers.length = rest.length + 1 := by simp [hq]
      simp only [step]
      omega
  | addSystemMessage message now =>
    have hu := userCount_addMessage_ai self message now
    simp only [step, addSystemMessage]
    rw [hu]
    simpa [addMessage] using h
  | toggleChat => simpa [step, toggleChat, userCount] using h
  | closeChat => simpa [step, closeChat, userCount] using h
  | openChat =>
    simp only [step, openChat]
    split_ifs
    · simpa [toggleChat, userCount] using h
    · exact h
  | close =>
    simp only [step, close]
    split_ifs
    · simpa [toggleChat, userCount] using h
    · exact h

theorem run_timers_le_userCount (toLowerCase : String → String) (events : List Event) :
    ∀ self : EduPathChatbot, self.timers.length ≤ userCount self →
      (run toLowerCase self events).timers.length ≤ userCount (run toLowerCase self events) := by
  induction events with
  | nil => intro self h; exact h
  | cons e es ih =>
    intro self h
    exact ih (step toLowerCase self e) (step_timers_le_userCount toLowerCase self e h)

/-! ## The response engine: claims C1 to C5 -/

/-- C1, counterexample: on the colleges page the utterance "hello" contains no key of the
colleges table and contains the key "hello" of the general table, and the reply is the
default string of the colleges page, not the "hello" reply of the general table. -/
theorem colleges_hello_gets_colleges_default :
    (∀ p ∈ tableOf "colleges", includes (asciiLower "hello") p.1 = false) ∧
    findBestResponse (asciiLower "hello") generalResponses = generalResponses.lookup "hello" ∧
    (generalResponses.lookup "hello").isSome = true ∧
    answer asciiLower "colleges" "hello" = collegesDefault ∧
    some (answer asciiLower "colleges" "hello") ≠ generalResponses.lookup "hello" := by
  decide

/-- C1, amended: on each of the seven pages with a table of their own, an utterance whose
lowercased form contains no key of that table gets the default string of that page, whether or
not it contains a key of the general table; that reply is never a reply of the general table,
which is scanned only on home. -/
theorem page_without_match_gets_page_default (toLowerCase : String → String)
    (currentPage message : String) (hpage : currentPage ∈ pageContexts)
    (hnone : ∀ p ∈ tableOf currentPage, includes (toLowerCase message) p.1 = false) :
    answer toLowerCase currentPage message = defaultOf currentPage ∧
    ∀ p ∈ generalResponses, answer toLowerCase currentPage message ≠ p.2 := by
  have hdef := answer_no_match toLowerCase currentPage message hnone
  refine ⟨hdef, ?_⟩
  rw [hdef]
  simp only [pageContexts, List.mem_cons, List.mem_singleton, List.not_mem_nil, or_false] at hpage
  rcases hpage with h | h | h | h | h | h | h <;> subst h <;> decide

theorem page_without_match_gets_page_default_witness :
    "colleges" ∈ pageContexts ∧
    (∀ p ∈ tableOf "colleges", includes (asciiLower "hello") p.1 = false) ∧
    answer asciiLower "colleges" "hello" = defaultOf "colleges" ∧
    ∀ p ∈ generalResponses, answer asciiLower "colleges" "hello" ≠ p.2 :=
  ⟨by decide, by decide,
    page_without_match_gets_page_default asciiLower "colleges" "hello" (by decide) (by decide)⟩

/-- C2: on every page, when some key of the page table occurs in the lowercased utterance, the
reply is the response of the earliest declared such key.  In the login table the keys are
declared in the order password, forgot, account, help, so "I forgot my password" gets the
"password" reply and not the "forgot" reply; "careers" matches the key "career"; an upper-case
utterance matches the lower-case keys. -/
theorem first_declared_key_wins :
    (∀ (toLowerCase : String → String) (currentPage message : String)
        (pre post : List (String × String)) (key response : String),
        tableOf currentPage = pre ++ (key, response) :: post →
        (∀ p ∈ pre, includes (toLowerCase message) p.1 = false) →
        includes (toLowerCase message) key = true →
        answer toLowerCase currentPage message = response) ∧
    (∀ (toLowerCase : String → String) (currentPage message : String),
        (∃ p ∈ tableOf currentPage, includes (toLowerCase message) p.1 = true) →
        ∃ pre post key response, tableOf currentPage = pre ++ (key, response) :: post ∧
          (∀ p ∈ pre, includes (toLowerCase message) p.1 = false) ∧
          includes (toLowerCase message) key = true ∧
          answer toLowerCase currentPage message = response) ∧
    loginResponses.map Prod.fst = ["password", "forgot", "account", "help"] ∧
    includes (asciiLower "I forgot my password") "forgot" = true ∧
    includes (asciiLower "I forgot my password") "password" = true ∧
    some (answer asciiLower "login" "I forgot my password") = loginResponses.lookup "password" ∧
    some (answer asciiLower "login" "I forgot my password") ≠ loginResponses.lookup "forgot" ∧
    some (answer asciiLower "careers" "careers") = careersResponses.lookup "career" ∧
    some (answer asciiLower "login" "My PASSWORD") = loginResponses.lookup "password" := by
  refine ⟨?_, ?_, by decide, by decide, by decide, by decide, by decide, by decide, by decide⟩
  · intro toLowerCase currentPage message pre post key response htable hpre hkey
    exact answer_first_match toLowerCase currentPage message pre post key response htable hpre hkey
  · intro toLowerCase currentPage message hex
    obtain ⟨pre, post, key, response, htable, hpre, hkey⟩ :=
      exists_first_match (toLowerCase message) (tableOf currentPage) hex
    exact ⟨pre, post, key, response, htable, hpre, hkey,
      answer_first_match toLowerCase currentPage message pre post key response htable hpre hkey⟩

theorem first_declared_key_wins_witness :
    tableOf "quiz" = [] ++ ("career", "Our career quiz analyzes your interests, skills, and personality to suggest the best career paths for you. Just answer honestly!") ::
      quizResponses.tail ∧
    (∀ p ∈ ([] : List (String × String)), includes (asciiLower "Which CAREERS fit my results?") p.1 = false) ∧
    includes (asciiLower "Which CAREERS fit my results?") "career" = true ∧
    answer asciiLower "quiz" "Which CAREERS fit my results?" =
      "Our career quiz analyzes your interests, skills, and personality to suggest the best career paths for you. Just answer honestly!" :=
  ⟨by decide, by decide, by decide,
    first_declared_key_wins.1 asciiLower "quiz" "Which CAREERS fit my results?" [] quizResponses.tail
      "career" _ (by decide) (by decide) (by decide)⟩

/-- C3, counterexample: on home the default string is the response stored under the key
"default" of the general table, and the utterance "default" gets it through a successful match
of that key. -/
theorem home_default_is_a_table_reply :
    ("default", defaultOf "home") ∈ tableOf "home" ∧
    includes (asciiLower "default") "default" = true ∧
    findBestResponse (asciiLower "default") (tableOf "home") = some (defaultOf "home") ∧
    answer asciiLower "home" "default" = defaultOf "home" ∧
    ¬ (∀ p ∈ tableOf "home", p.2 ≠ defaultOf "home") := by
  decide

/-- C3, amended: for every page, an utterance whose lowercased form contains no key of any
table gets the default string of that page.  On the seven pages with a table of their own that
string is not the response of any key of the page table.  On home, and on every other page
name, the table is the general one and the default string is the response of its last key,
"default", which is scanned like the other keys. -/
theorem no_match_gets_default (toLowerCase : String → String) (currentPage message : String)
    (hnone : ∀ t ∈ allTables, ∀ p ∈ t, includes (toLowerCase message) p.1 = false) :
    answer toLowerCase currentPage message = defaultOf currentPage ∧
    (currentPage ∈ pageContexts → ∀ p ∈ tableOf currentPage, p.2 ≠ defaultOf currentPage) ∧
    (currentPage ∉ pageContexts →
      tableOf currentPage = generalResponses ∧ defaultOf currentPage = generalDefault ∧
      generalResponses.getLast? = some ("default", generalDefault)) := by
  refine ⟨?_, ?_, ?_⟩
  · apply answer_no_match
    exact hnone (tableOf currentPage) (tableOf_mem_allTables currentPage)
  · intro hpage
    simp only [pageContexts, List.mem_cons, List.mem_singleton, List.not_mem_nil, or_false]
      at hpage
    rcases hpage with h | h | h | h | h | h | h <;> subst h <;> decide
  · intro hpage
    simp only [pageContexts, List.mem_cons, List.mem_singleton, List.not_mem_nil, or_false,
      not_or] at hpage
    obtain ⟨h1, h2, h3, h4, h5, h6, h7⟩ := hpage
    refine ⟨?_, ?_, by decide⟩
    · simp [tableOf, h1, h2, h3, h4, h5, h6, h7]
    · simp [defaultOf, h1, h2, h3, h4, h5, h6, h7]

theorem no_match_gets_default_witness :
    (∀ t ∈ allTables, ∀ p ∈ t, includes (asciiLower "xyz123") p.1 = false) ∧
    answer asciiLower "login" "xyz123" = defaultOf "login" ∧
    ("login" ∈ pageContexts → ∀ p ∈ tableOf "login", p.2 ≠ defaultOf "login") ∧
    ("login" ∉ pageContexts →
      tableOf "login" = generalResponses ∧ defaultOf "login" = generalDefault ∧
      generalResponses.getLast? = some ("default", generalDefault)) :=
  ⟨by decide, no_match_gets_default asciiLower "login" "xyz123" (by decide)⟩

/-- C4: `getCurrentPageContext` is total and equals the reference definition that scans the
ordered pairs and returns the context of the first one whose substring occurs in the path, else
home.  A path with "quiz" and without "login" and "register" resolves to quiz, a path with both
"login" and "quiz" resolves to login, and the empty path resolves to home. -/
theorem getCurrentPageContext_eq_resolveSpec (path : String) :
    getCurrentPageContext path = resolveSpec path ∧
    (includes path "quiz" = true → includes path "login" = false →
      includes path "register" = false → getCurrentPageContext path = "quiz") ∧
    (includes path "login" = true → includes path "quiz" = true →
      getCurrentPageContext path = "login") ∧
    getCurrentPageContext "" = "home" := by
  refine ⟨?_, ?_, ?_, by decide⟩
  · unfold getCurrentPageContext resolveSpec contextPairs
    simp only [List.find?]
    split_ifs <;> simp_all
  · intro hq hl hr
    simp [getCurrentPageContext, hq, hl, hr]
  · intro hl _
    simp [getCurrentPageContext, hl]

theorem getCurrentPageContext_eq_resolveSpec_witness :
    (includes "/pages/quiz.html" "quiz" = true ∧ includes "/pages/quiz.html" "login" = false ∧
      includes "/pages/quiz.html" "register" = false ∧
      getCurrentPageContext "/pages/quiz.html" = "quiz") ∧
    (includes "/login/quiz.html" "login" = true ∧ includes "/login/quiz.html" "quiz" = true ∧
      getCurrentPageContext "/login/quiz.html" = "login") :=
  ⟨⟨by decide, by decide, by decide,
      (getCurrentPageContext_eq_resolveSpec "/pages/quiz.html").2.1 (by decide) (by decide)
        (by decide)⟩,
    ⟨by decide, by decide,
      (getCurrentPageContext_eq_resolveSpec "/login/quiz.html").2.2.1 (by decide) (by decide)⟩⟩

/-- C5: for every page name and every utterance, the empty one included, the reply is a
non-empty string; a page name outside the seven pages with a table of their own is handled like
home; and the reply that a scheduled callback appends is this function of the path and the
captured message alone, whatever the state of the session. -/
theorem answer_is_nonempty_function (toLowerCase : String → String)
    (currentPage message : String) :
    answer toLowerCase currentPage message ≠ "" ∧
    answer toLowerCase currentPage "" ≠ "" ∧
    (currentPage ∉ pageContexts →
      answer toLowerCase currentPage message = answer toLowerCase "home" message) ∧
    (∀ (self : EduPathChatbot) (pathname : String) (now : Nat),
      (timerCallback toLowerCase self message pathname now).messages =
        self.messages ++ [{ message := answer toLowerCase (getCurrentPageContext pathname) message,
                            sender := Sender.ai, timestamp := now }]) := by
  refine ⟨answer_ne_empty _ _ _, answer_ne_empty _ _ _, ?_, ?_⟩
  · intro hpage
    simp only [pageContexts, List.mem_cons, List.mem_singleton, List.not_mem_nil, or_false,
      not_or] at hpage
    obtain ⟨h1, h2, h3, h4, h5, h6, h7⟩ := hpage
    simp [answer, h1, h2, h3, h4, h5, h6, h7]
  · intro self pathname now
    rfl

theorem answer_is_nonempty_function_witness :
    "settings" ∉ pageContexts ∧
    answer asciiLower "settings" "Hello there" = answer asciiLower "home" "Hello there" :=
  ⟨by decide, (answer_is_nonempty_function asciiLower "settings" "Hello there").2.2.1 (by decide)⟩

/-! ## The session: claims C6 to C10 -/

/-- C6: when the text is empty or holds only whitespace, `sendMessage` returns the session
unchanged (same transcript, no callback scheduled, so a session with no pending reply stays
so); when the trimmed text is not empty, it appends exactly one message, sent by the user, whose
text is the trimmed text. -/
theorem sendMessage_blank_is_noop (self : EduPathChatbot) (inputValue : String) (now : Nat) :
    ((∀ c ∈ inputValue.data, isWhiteSpace c = true) →
      sendMessage self inputValue now = self) ∧
    (trim inputValue ≠ "" →
      (sendMessage self inputValue now).messages =
        self.messages ++ [{ message := trim inputValue, sender := Sender.user, timestamp := now }]) := by
  constructor
  · intro h
    exact sendMessage_of_trim_empty self inputValue now ((trim_eq_empty_iff inputValue).mpr h)
  · intro h
    rw [sendMessage_of_trim_ne_empty self inputValue now h]

theorem sendMessage_blank_is_noop_witness :
    ((∀ c ∈ " \t\n ".data, isWhiteSpace c = true) ∧
      sendMessage (new none 5) " \t\n " 9 = new none 5) ∧
    (trim "  hi there \n" ≠ "" ∧
      (sendMessage (new none 5) "  hi there \n" 9).messages =
        (new none 5).messages ++ [{ message := "hi there", sender := Sender.user, timestamp := 9 }]) :=
  ⟨⟨by decide, (sendMessage_blank_is_noop (new none 5) " \t\n " 9).1 (by decide)⟩,
    ⟨by decide, (sendMessage_blank_is_noop (new none 5) "  hi there \n" 9).2 (by decide)⟩⟩

/-- C7, counterexample: a new session already holds the welcome message, so after the text
"hi" is sent and its reply has completed the transcript has three messages and the first one
was sent by the assistant. -/
theorem new_session_hi_has_three_messages :
    (getChatHistory (new none 0)).length = 1 ∧
    (getChatHistory (replyCompletes asciiLower (sendMessage (new none 0) "hi" 1) "/" 2)).length
      = 3 ∧
    (getChatHistory (replyCompletes asciiLower (sendMessage (new none 0) "hi" 1) "/" 2)).map
      Message.sender = [Sender.ai, Sender.user, Sender.ai] ∧
    ¬ ((getChatHistory
        (replyCompletes asciiLower (sendMessage (new none 0) "hi" 1) "/" 2)).length = 2) := by
  decide

/-- C7, amended: the constructor puts the welcome message (sender assistant) into the
transcript; after "hi" is sent and its reply has completed, the transcript has length 3:
the welcome message, then the user message "hi", then the assistant reply for "hi", and their
timestamps are non-decreasing when the clock readings are. -/
theorem welcome_hi_reply_transcript (toLowerCase : String → String)
    (welcomeMessage : Option String) (pathname : String) (t0 t1 t2 : Nat)
    (h01 : t0 ≤ t1) (h12 : t1 ≤ t2) :
    getChatHistory
        (replyCompletes toLowerCase (sendMessage (new welcomeMessage t0) "hi" t1) pathname t2) =
      [{ message := welcomeMessage.getD defaultWelcomeMessage, sender := Sender.ai,
         timestamp := t0 },
       { message := "hi", sender := Sender.user, timestamp := t1 },
       { message := generateAIResponse toLowerCase pathname "hi", sender := Sender.ai,
         timestamp := t2 }] ∧
    List.Pairwise (fun a b => a ≤ b)
      ((getChatHistory
        (replyCompletes toLowerCase (sendMessage (new welcomeMessage t0) "hi" t1) pathname
          t2)).map Message.timestamp) := by
  have htrim : trim "hi" = "hi" := by decide
  have hne : ("hi" : String) ≠ "" := by decide
  have hsend := sendMessage_of_trim_ne_empty (new welcomeMessage t0) "hi" t1 (by rw [htrim]; exact hne)
  rw [hsend, htrim]
  have hlist : getChatHistory
        (replyCompletes toLowerCase
          { new welcomeMessage t0 with
            messages := (new welcomeMessage t0).messages ++
              [{ message := "hi", sender := Sender.user, timestamp := t1 }]
            timers := (new welcomeMessage t0).timers ++ ["hi"] } pathname t2) =
      [{ message := welcomeMessage.getD defaultWelcomeMessage, sender := Sender.ai,
         timestamp := t0 },
       { message := "hi", sender := Sender.user, timestamp := t1 },
       { message := generateAIResponse toLowerCase pathname "hi", sender := Sender.ai,
         timestamp := t2 }] := by
    simp [new, init, addWelcomeMessage, addMessage, replyCompletes, timerCallback,
      getChatHistory]
  rw [hlist]
  refine ⟨rfl, ?_⟩
  simp only [List.map, List.pairwise_cons, List.mem_cons, List.mem_singleton, List.not_mem_nil,
    List.Pairwise.nil, and_true]
  refine ⟨?_, ?_, ?_⟩
  · intro a ha
    rcases ha with rfl | rfl | h
    · exact h01
    · exact le_trans h01 h12
    · exact absurd h (by simp)
  · intro a ha
    rcases ha with rfl | h
    · exact h12
    · exact absurd h (by simp)
  · intro a ha
    exact absurd ha (by simp)

theorem welcome_hi_reply_transcript_witness :
    (3 : Nat) ≤ 4 ∧ (4 : Nat) ≤ 1004 ∧
    getChatHistory
        (replyCompletes asciiLower (sendMessage (new none 3) "hi" 4) "/login.html" 1004) =
      [{ message := (none : Option String).getD defaultWelcomeMessage, sender := Sender.ai,
         timestamp := 3 },
       { message := "hi", sender := Sender.user, timestamp := 4 },
       { message := generateAIResponse asciiLower "/login.html" "hi", sender := Sender.ai,
         timestamp := 1004 }] :=
  ⟨by decide, by decide,
    (welcome_hi_reply_transcript asciiLower none "/login.html" 3 4 1004 (by decide)
      (by decide)).1⟩

/-- C8, counterexample: two texts sent one after the other to a new session, with no reply
completed in between, leave two scheduled replies pending. -/
theorem two_sends_leave_two_pending :
    (run asciiLower (new none 0) [Event.sendMessage "a" 1, Event.sendMessage "b" 2]).timers
      = ["a", "b"] ∧
    ¬ ((run asciiLower (new none 0)
        [Event.sendMessage "a" 1, Event.sendMessage "b" 2]).timers.length ≤ 1) := by
  decide

/-- C8, amended: `sendMessage` has no guard on pending replies.  In every state reachable from
a new session, a text whose trimmed form is not empty schedules exactly one more reply, also
while others are pending, and the number of pending replies is at most the number of user
messages in the transcript (it is not bounded by one). -/
theorem pending_replies_bounded_by_user_messages (toLowerCase : String → String)
    (welcomeMessage : Option String) (t0 : Nat) (events : List Event) :
    (run toLowerCase (new welcomeMessage t0) events).timers.length ≤
      userCount (run toLowerCase (new welcomeMessage t0) events) ∧
    ∀ (inputValue : String) (now : Nat), trim inputValue ≠ "" →
      (sendMessage (run toLowerCase (new welcomeMessage t0) events) inputValue now).timers =
        (run toLowerCase (new welcomeMessage t0) events).timers ++ [trim inputValue] := by
  constructor
  · apply run_timers_le_userCount
    simp [new, init, addWelcomeMessage, addMessage]
  · intro inputValue now h
    rw [sendMessage_of_trim_ne_empty _ inputValue now h]

theorem pending_replies_bounded_by_user_messages_witness :
    trim " second " ≠ "" ∧
    (sendMessage (run asciiLower (new none 0) [Event.sendMessage "first" 1]) " second " 2).timers =
      (run asciiLower (new none 0) [Event.sendMessage "first" 1]).timers ++ [trim " second "] ∧
    (sendMessage (run asciiLower (new none 0) [Event.sendMessage "first" 1]) " second "
      2).timers.length = 2 :=
  ⟨by decide,
    (pending_replies_bounded_by_user_messages asciiLower none 0
      [Event.sendMessage "first" 1]).2 " second " 2 (by decide),
    by decide⟩

/-- C9: in every session state and for every text, `addSystemMessage` appends exactly one
message at the end of the transcript, with sender assistant and the given text; the earlier
messages, the pending replies, the visibility flag and the options are unchanged. -/
theorem addSystemMessage_appends_one (self : EduPathChatbot) (message : String) (now : Nat) :
    (addSystemMessage self message now).messages =
      self.messages ++ [{ message := message, sender := Sender.ai, timestamp := now }] ∧
    (addSystemMessage self message now).messages.length = self.messages.length + 1 ∧
    (addSystemMessage self message now).timers = self.timers ∧
    (addSystemMessage self message now).isOpen = self.isOpen ∧
    (addSystemMessage self message now).welcomeMessage = self.welcomeMessage := by
  refine ⟨rfl, ?_, rfl, rfl, rfl⟩
  simp [addSystemMessage, addMessage]

/-- C10: for every event of the session the transcript before it is a prefix of the transcript
after it.  A `sendMessage` whose trimmed text is not empty, and the completion of a pending
reply, each extend it by exactly one message; `toggleChat`, `closeChat`, `open` and `close`
change nothing but the flag `isOpen`. -/
theorem transcript_is_append_only (toLowerCase : String → String) (self : EduPathChatbot)
    (e : Event) :
    self.messages <+: (step toLowerCase self e).messages ∧
    (∀ (inputValue : String) (now : Nat), trim inputValue ≠ "" →
      ∃ m, (sendMessage self inputValue now).messages = self.messages ++ [m]) ∧
    (∀ (pathname : String) (now : Nat), self.timers ≠ [] →
      ∃ m, (replyCompletes toLowerCase self pathname now).messages = self.messages ++ [m]) ∧
    toggleChat self = { self with isOpen := !self.isOpen } ∧
    closeChat self = { self with isOpen := false } ∧
    openChat self = { self with isOpen := true } ∧
    close self = { self with isOpen := false } := by
  have hsend : ∀ (inputValue : String) (now : Nat), trim inputValue ≠ "" →
      ∃ m, (sendMessage self inputValue now).messages = self.messages ++ [m] := by
    intro inputValue now h
    exact ⟨_, by rw [sendMessage_of_trim_ne_empty self inputValue now h]⟩
  have hreply : ∀ (pathname : String) (now : Nat), self.timers ≠ [] →
      ∃ m, (replyCompletes toLowerCase self pathname now).messages = self.messages ++ [m] := by
    intro pathname now h
    cases hq : self.timers with
    | nil => exact absurd hq h
    | cons m rest =>
      exact ⟨{ message := generateAIResponse toLowerCase pathname m, sender := Sender.ai,
               timestamp := now },
        by simp [replyCompletes, hq, timerCallback, addMessage]⟩
  have hopen : openChat self = { self with isOpen := true } := by
    cases self with
    | mk w o ms ts => cases o <;> rfl
  have hclose : close self = { self with isOpen := false } := by
    cases self with
    | mk w o ms ts => cases o <;> rfl
  refine ⟨?_, hsend, hreply, rfl, rfl, hopen, hclose⟩
  cases e with
  | sendMessage inputValue now =>
    by_cases ht : trim inputValue = ""
    · simp [step, sendMessage_of_trim_empty self inputValue now ht]
    · obtain ⟨m, hm⟩ := hsend inputValue now ht
      simp [step, hm]
  | replyCompletes pathname now =>
    by_cases hq : self.timers = []
    · simp [step, replyCompletes, hq]
    · obtain ⟨m, hm⟩ := hreply pathname now hq
      simp [step, hm]
  | addSystemMessage message now => simp [step, addSystemMessage, addMessage]
  | toggleChat => simp [step, toggleChat]
  | closeChat => simp [step, closeChat]
  | openChat => simp [step, hopen]
  | close => simp [step, hclose]

theorem transcript_is_append_only_witness :
    (trim "hi" ≠ "" ∧
      ∃ m, (sendMessage (new none 0) "hi" 1).messages = (new none 0).messages ++ [m]) ∧
    ((sendMessage (new none 0) "hi" 1).timers ≠ [] ∧
      ∃ m, (replyCompletes asciiLower (sendMessage (new none 0) "hi" 1) "/quiz.html" 2).messages =
        (sendMessage (new none 0) "hi" 1).messages ++ [m]) :=
  ⟨⟨by decide,
      (transcript_is_append_only asciiLower (new none 0) Event.toggleChat).2.1 "hi" 1
        (by decide)⟩,
    ⟨by decide,
      (transcript_is_append_only asciiLower (sendMessage (new none 0) "hi" 1)
        Event.toggleChat).2.2.1 "/quiz.html" 2 (by decide)⟩⟩

end EduPath
